import Mathlib

/-!
Verification of the expert-review-system repository.

Shallow embedding of the review analysis and scoring pipeline. JS numbers
are embedded as rationals; the random draws of the mock client
(`Math.random()` values in `[0,1)`) are passed as explicit parameters.
-/

namespace ExpertReview

/-! ## Recommendation classifier (src/api.js lines 161-170, src/config.js lines 8-12, 32-37) -/

/-- The four recommendation tiers (`RECOMMENDATION_LEVELS` in src/config.js). -/
inductive Recommendation where
  | highlyLikely
  | worthTrying
  | proceedWithCaution
  | likelyToDisappoint
deriving DecidableEq, Repr

/-- Display strings of `RECOMMENDATION_LEVELS` in src/config.js. -/
def recommendationLabel : Recommendation → String
  | .highlyLikely => "Highly Likely"
  | .worthTrying => "Worth Trying"
  | .proceedWithCaution => "Proceed with Caution"
  | .likelyToDisappoint => "Likely to Disappoint"

/-- `CONFIG.RECOMMENDATION` thresholds (src/config.js lines 8-12). -/
structure RecommendationThresholds where
  highly_likely : ℚ
  worth_trying : ℚ
  proceed_caution : ℚ
deriving Repr

/-- Default thresholds from src/config.js: 0.8, 0.6, 0.4. -/
def defaultThresholds : RecommendationThresholds :=
  { highly_likely := 8/10, worth_trying := 6/10, proceed_caution := 4/10 }

/-- The threshold lookup of `MockAPIClient._generateMockAnalysis`
(src/api.js lines 161-170): `score >= t` checks in descending order. -/
def classifyRecommendation (cfg : RecommendationThresholds) (score : ℚ) :
    Recommendation :=
  if cfg.highly_likely ≤ score then .highlyLikely
  else if cfg.worth_trying ≤ score then .worthTrying
  else if cfg.proceed_caution ≤ score then .proceedWithCaution
  else .likelyToDisappoint

/-- Tier ordering: higher rank is a better tier. -/
def tierRank : Recommendation → ℕ
  | .likelyToDisappoint => 0
  | .proceedWithCaution => 1
  | .worthTrying => 2
  | .highlyLikely => 3

/-! ## Mock analysis generation (src/api.js lines 158-211) -/

/-- `0.3 + Math.random() * 0.65` (src/api.js line 159); `r` is the
random draw in `[0,1)`. -/
def mockCompatibilityScore (r : ℚ) : ℚ := 3/10 + r * (65/100)

/-- Sentiment summary record (src/api.js lines 198-202). -/
structure SentimentSummary where
  positive : ℤ
  neutral : ℤ
  negative : ℤ
deriving DecidableEq, Repr

/-- `positiveBase` selection (src/api.js lines 187-188). -/
def mockPositiveBase (score : ℚ) : ℤ :=
  if 7/10 < score then 70 else if 1/2 < score then 55 else 40

/-- The sentiment summary of `_generateMockAnalysis` (src/api.js lines
187-191): `positive = floor(positiveBase + r1*20)`,
`neutral = floor(10 + r2*20)`, `negative = max(1, 100 - positive - neutral)`;
`r1`, `r2` are the two `Math.random()` draws. -/
def mockSentimentSummary (score r1 r2 : ℚ) : SentimentSummary :=
  let positive : ℤ := ⌊(mockPositiveBase score : ℚ) + r1 * 20⌋
  let neutral : ℤ := ⌊(10 : ℚ) + r2 * 20⌋
  { positive := positive
    neutral := neutral
    negative := max 1 (100 - positive - neutral) }

/-- The mock response object of `_generateMockAnalysis`
(src/api.js lines 193-210), field for field. -/
structure MockAnalysisResult where
  title : String
  recommendation : String
  compatibility_score : ℚ
  theme_alignment : List String
  sentiment_summary : SentimentSummary
  matching_titles : List (String × ℚ)
  analysis_id : String
  timestamp : String
deriving Repr

/-- The ten candidate themes of the mock client (src/api.js lines 172-183). -/
def mockThemes : List String :=
  ["character_development", "moral_complexity", "world_building",
   "storytelling", "visual_effects", "emotional_depth", "exploration",
   "mystery", "humor", "philosophy"]

/-- `_generateMockAnalysis` (src/api.js lines 158-211). `r`, `r1`, `r2` are
the `Math.random()` draws; `shuffled` is the implementation-defined result of
`themes.sort(() => Math.random() - 0.5)` (a permutation of `mockThemes`);
`now` stands for `Date.now()` / `new Date().toISOString()`. -/
def mockGenerateAnalysis (title : String) (r r1 r2 : ℚ)
    (shuffled : List String) (now : String) : MockAnalysisResult :=
  let score := mockCompatibilityScore r
  { title := title
    recommendation := recommendationLabel (classifyRecommendation defaultThresholds score)
    compatibility_score := score
    theme_alignment := shuffled.take 4
    sentiment_summary := mockSentimentSummary score r1 r2
    matching_titles := [("Fallout TV", 92/100), ("Dark", 85/100), ("3 Body Problem", 81/100)]
    analysis_id := "mock_" ++ now
    timestamp := now }

/-- The JSON keys of the object returned by `_generateMockAnalysis`
(src/api.js lines 193-210), in source order. -/
def mockAnalysisResultFields : List String :=
  ["title", "recommendation", "compatibility_score", "theme_alignment",
   "sentiment_summary", "matching_titles", "analysis_id", "timestamp"]

/-! ## Review filter (spec section 4.1)

The backend pipeline (ReviewFilter, ThemeExtractor, SentimentAligner,
AnalysisOrchestrator) is not part of the files under version control here;
it is modelled from the specification. -/

/-- Review source platforms (spec section 3, RawReview.source). -/
inductive ReviewSource where
  | imdb
  | steam
  | metacritic
deriving DecidableEq, Repr

/-- Modelled from the spec: the RawReview record of section 3 — text,
optional rating, optional author, source platform. -/
structure RawReview where
  text : String
  rating : Option ℚ := none
  author : Option String := none
  source : ReviewSource := .imdb
deriving Repr

/-- Modelled from the spec: text normalization for deduplication
(case-fold, collapse whitespace), section 4.1 rule 1. -/
def normalizeText (s : String) : String :=
  " ".intercalate ((s.toLower.split Char.isWhitespace).filter (· ≠ ""))

/-- Modelled from the spec: the filter configuration of sections 4.1 and 6
(length range, spam patterns, repetition fraction, minimum review count),
with the spec defaults. -/
structure FilterConfig where
  minLength : ℕ := 20
  maxLength : ℕ := 5000
  spamPatterns : List String := ["click here", "buy now", "http://", "https://"]
  maxTokenFraction : ℚ := 3/10
  minReviews : ℕ := 1

/-- Substring test: `pat` occurs in `s` iff splitting on `pat` yields more
than one piece. -/
def containsPattern (s pat : String) : Bool :=
  (s.splitOn pat).length != 1

/-- Whitespace tokenization (spec section 4.1 rule 4). -/
def tokensOf (s : String) : List String :=
  (s.split Char.isWhitespace).filter (· ≠ "")

/-- Modelled from the spec: spam detection, section 4.1 rule 3 — the review
matches one of the configured patterns (URLs, advertorial phrasing). -/
def isSpam (cfg : FilterConfig) (s : String) : Bool :=
  cfg.spamPatterns.any (containsPattern s.toLower)

/-- Modelled from the spec: repetition detection, section 4.1 rule 4 — some
token exceeds the configured fraction of total tokens (strict, per the
documented open question resolved to exclusive). -/
def isRepetitive (cfg : FilterConfig) (s : String) : Bool :=
  let ts := tokensOf s
  ts.any fun t => decide (cfg.maxTokenFraction * ts.length < (ts.count t : ℚ))

/-- Modelled from the spec: rules 2-4 of section 4.1 applied to one review
(length on trimmed text, spam, repetition). -/
def passesContentRules (cfg : FilterConfig) (r : RawReview) : Bool :=
  let t := r.text.trim
  decide (cfg.minLength ≤ t.length) && decide (t.length ≤ cfg.maxLength) &&
    !isSpam cfg r.text && !isRepetitive cfg r.text

/-- Modelled from the spec: deduplication, section 4.1 rule 1 — drop a review
whose normalized text duplicates an earlier-kept review; first occurrence
wins; order-preserving. -/
def dedupReviews (seen : List String) : List RawReview → List RawReview
  | [] => []
  | r :: rs =>
    let n := normalizeText r.text
    if n ∈ seen then dedupReviews seen rs
    else r :: dedupReviews (n :: seen) rs

/-- Modelled from the spec: ReviewFilter, section 4.1 — rules applied in
order: dedup first, then the per-review content rules. -/
def reviewFilter (cfg : FilterConfig) (raws : List RawReview) : List RawReview :=
  (dedupReviews [] raws).filter (passesContentRules cfg)

/-! ## Theme extractor (spec section 4.3) -/

/-- Modelled from the spec: a ThemeVocabulary entry, section 3 — a name
and an ordered sequence of weighted keyword terms. -/
structure ThemeEntry where
  name : String
  keywords : List (String × ℚ)

/-- Occurrence count of a keyword term in a review text (whitespace
tokens, case-folded). -/
def countOccur (text term : String) : ℕ :=
  (tokensOf text.toLower).count term

/-- Modelled from the spec: per-review theme score, section 4.3 — sum over
matched keywords of weight times occurrence count, with a multiplicative
1.2 bonus when the review matches at least 2 distinct keywords of the
theme. -/
def reviewThemeScore (e : ThemeEntry) (text : String) : ℚ :=
  let base := (e.keywords.map fun kw => kw.2 * (countOccur text kw.1 : ℚ)).sum
  let distinct := (e.keywords.filter fun kw => countOccur text kw.1 != 0).length
  if 2 ≤ distinct then base * (12/10) else base

/-- Modelled from the spec: aggregate theme score across all reviews
(section 4.3). -/
def aggThemeScore (e : ThemeEntry) (texts : List String) : ℚ :=
  (texts.map (reviewThemeScore e)).sum

/-- All (theme name, aggregate score) pairs for a vocabulary. -/
def themeScores (vocab : List ThemeEntry) (texts : List String) :
    List (String × ℚ) :=
  vocab.map fun e => (e.name, aggThemeScore e texts)

/-- Descending-by-score ordering on scored themes. -/
def scoreDesc (a b : String × ℚ) : Prop := b.2 ≤ a.2

instance : DecidableRel scoreDesc := fun a b => inferInstanceAs (Decidable (b.2 ≤ a.2))

instance : IsTotal (String × ℚ) scoreDesc := ⟨fun a b => le_total b.2 a.2⟩

instance : IsTrans (String × ℚ) scoreDesc :=
  ⟨fun _ _ _ h1 h2 => le_trans h2 h1⟩

/-- Modelled from the spec: the ranked theme list of section 4.3 — themes
with zero matches excluded, remaining themes sorted by aggregate score
descending, truncated to the top 4; kept with their scores. -/
def themeAlignmentScored (vocab : List ThemeEntry) (texts : List String) :
    List (String × ℚ) :=
  (((themeScores vocab texts).filter fun p => decide (0 < p.2)).insertionSort
      scoreDesc).take 4

/-- Modelled from the spec: `theme_alignment`, the theme names of the ranked
list (section 4.3). -/
def themeAlignment (vocab : List ThemeEntry) (texts : List String) :
    List String :=
  (themeAlignmentScored vocab texts).map Prod.fst

/-! ## Sentiment oracle and aligner (spec sections 4.4, 4.5) -/

/-- Modelled from the spec: SentimentVerdict, section 3 — a star rating
in 1..5 and a confidence in the unit interval. -/
structure SentimentVerdict where
  starRating : ℕ
  confidence : ℚ
deriving Repr

/-- Modelled from the spec: a SentimentOracle capability (section 4.4 and
design note of section 9): a mode tag, a model name, and the batch scoring
function, threaded explicitly into the pipeline. -/
structure SentimentOracle where
  mode : String
  model : String
  run : List String → List SentimentVerdict

/-- Star rating mapped to the unit interval, `(stars - 1) / 4`
(spec section 4.5). -/
def unitScore (v : SentimentVerdict) : ℚ := ((v.starRating : ℚ) - 1) / 4

/-- Modelled from the spec: the unweighted arithmetic mean of the normalized
unit scores (section 4.5); zero on an empty batch (division by zero). -/
def meanSentiment (vs : List SentimentVerdict) : ℚ :=
  (vs.map unitScore).sum / vs.length

/-- Confidence weight of one bucket: stars 4-5 positive, 3 neutral, 1-2
negative (spec section 4.5). -/
def bucketWeight (vs : List SentimentVerdict) (low high : ℕ) : ℚ :=
  ((vs.filter fun v => decide (low ≤ v.starRating) && decide (v.starRating ≤ high)).map
      (·.confidence)).sum

/-- Modelled from the spec: SentimentAligner bucketing, section 4.5 —
confidence-weighted counts normalized to sum to 100, the integer rounding
remainder assigned to the largest bucket; all-zero weights yield all-zero
buckets (unspecified edge). -/
def alignSentiment (vs : List SentimentVerdict) : SentimentSummary :=
  let wp := bucketWeight vs 4 5
  let wu := bucketWeight vs 3 3
  let wn := bucketWeight vs 1 2
  let total := wp + wu + wn
  if total = 0 then { positive := 0, neutral := 0, negative := 0 }
  else
    let p := ⌊100 * wp / total⌋
    let u := ⌊100 * wu / total⌋
    let n := ⌊100 * wn / total⌋
    let rem := 100 - (p + u + n)
    if wu ≤ wp ∧ wn ≤ wp then
      { positive := p + rem, neutral := u, negative := n }
    else if wn ≤ wu then
      { positive := p, neutral := u + rem, negative := n }
    else
      { positive := p, neutral := u, negative := n + rem }

/-! ## Compatibility scorer and orchestrator (spec sections 4.6, 4.8) -/

/-- Modelled from the spec: UserPreferenceProfile, section 3. -/
structure UserPreferenceProfile where
  themes : List String
  averageRating : Option ℚ := none
  mediaType : String := "movie"

/-- Modelled from the spec: the configurable convex-combination weights
of section 4.6, default equal weighting. -/
structure ScoringWeights where
  sentimentWeight : ℚ := 1/2
  themeWeight : ℚ := 1/2

/-- Clamp to the unit interval. -/
def clamp01 (x : ℚ) : ℚ := max 0 (min 1 x)

/-- Modelled from the spec: weighted Jaccard-like theme overlap,
section 4.6 — weight of extracted top themes also preferred by the user,
divided by the total weight; zero when nothing was extracted. -/
def themeOverlap (scored : List (String × ℚ)) (userThemes : List String) : ℚ :=
  let inter := ((scored.filter fun p => userThemes.contains p.1).map (·.2)).sum
  let total := (scored.map (·.2)).sum
  if total = 0 then 0 else inter / total

/-- Modelled from the spec: the compatibility score of section 4.6 —
convex combination of mean sentiment and theme overlap, clamped to
`[0,1]`. -/
def compatScore (w : ScoringWeights) (meanSent overlap : ℚ) : ℚ :=
  clamp01 (w.sentimentWeight * meanSent + w.themeWeight * overlap)

/-- The typed analysis errors of spec section 7. -/
inductive AnalysisError where
  | validationError
  | insufficientReviews
  | configurationError
deriving DecidableEq, Repr

/-- Modelled from the spec: AnalysisResult, section 3. -/
structure AnalysisResult where
  compatibilityScore : ℚ
  recommendation : Recommendation
  themeAlignment : List String
  sentimentSummary : SentimentSummary
  evaluationMode : String
  evaluationModel : String

/-- Modelled from the spec: the AnalysisOrchestrator, section 4.8 —
filter, then fail fast with InsufficientReviews when the filtered set is
empty or below the configured minimum (section 7), otherwise run theme
extraction, the sentiment oracle and aligner, score and classify. -/
def analyze (oracle : SentimentOracle) (cfg : FilterConfig)
    (weights : ScoringWeights) (rec : RecommendationThresholds)
    (vocab : List ThemeEntry) (profile : UserPreferenceProfile)
    (raws : List RawReview) : Except AnalysisError AnalysisResult :=
  let filtered := reviewFilter cfg raws
  if filtered.length == 0 || filtered.length < cfg.minReviews then
    .error .insufficientReviews
  else
    let texts := filtered.map (·.text)
    let verdicts := oracle.run texts
    let scored := themeAlignmentScored vocab texts
    let score := compatScore weights (meanSentiment verdicts)
      (themeOverlap scored profile.themes)
    .ok
      { compatibilityScore := score
        recommendation := classifyRecommendation rec score
        themeAlignment := scored.map Prod.fst
        sentimentSummary := alignSentiment verdicts
        evaluationMode := oracle.mode
        evaluationModel := oracle.model }

/-! ## Rating validation (src/self-hosted/frontend/utils.js lines 66-73) -/

/-- A JavaScript value as passed to the frontend validators. JS numbers are
embedded as rationals, with NaN as a separate constructor (`typeof NaN` is
still `"number"` but every comparison with NaN is false). -/
inductive JSValue where
  | num (x : ℚ)
  | nan
  | str (s : String)
  | boolean (b : Bool)
  | undefined
  | null
deriving DecidableEq, Repr

/-- The JS `typeof` operator on the embedded values. -/
def jsTypeof : JSValue → String
  | .num _ => "number"
  | .nan => "number"
  | .str _ => "string"
  | .boolean _ => "boolean"
  | .undefined => "undefined"
  | .null => "object"

/-- JS `a >= m` for an embedded value against a number: false for NaN, and
unreachable-for-this-code coercions are irrelevant because `isValidRating`
only evaluates it after the `typeof` guard. -/
def jsGeNum : JSValue → ℚ → Bool
  | .num x, m => decide (m ≤ x)
  | _, _ => false

/-- JS `a <= m` for an embedded value against a number; false for NaN. -/
def jsLeNum : JSValue → ℚ → Bool
  | .num x, m => decide (x ≤ m)
  | _, _ => false

/-- JS `Number.isInteger`: true exactly for integer-valued numbers (false
for NaN and non-numbers). -/
def jsNumberIsInteger : JSValue → Bool
  | .num x => x.den == 1
  | _ => false

/-- `isValidRating(rating, min, max)` from
src/self-hosted/frontend/utils.js lines 66-73:
`typeof rating === "number" && rating >= min && rating <= max &&
Number.isInteger(rating)`. -/
def isValidRating (rating : JSValue) (min max : ℚ) : Bool :=
  (jsTypeof rating == "number") && jsGeNum rating min && jsLeNum rating max &&
    jsNumberIsInteger rating

/-! ## Preference storage (src/self-hosted/frontend/storage.js) -/

/-- One preference record of `getDefaultPreferences`
(src/self-hosted/frontend/storage.js lines 69-198). -/
structure Preference where
  title : String
  user_rating : ℚ
  media_type : String
  themes : List String
deriving DecidableEq, Repr

/-- The built-in default preference list, transcribed from
`StorageManager.getDefaultPreferences` (storage.js lines 70-197). -/
def getDefaultPreferences : List Preference :=
  [ { title := "Beacon 23", user_rating := 6, media_type := "TV",
      themes := ["isolation", "psychological", "mystery"] },
    { title := "Star Trek TNG", user_rating := 9, media_type := "TV",
      themes := ["philosophy", "character_development", "moral_dilemmas"] },
    { title := "Discovery", user_rating := 5, media_type := "TV",
      themes := ["visual_effects", "complex_story", "mixed_reception"] },
    { title := "Deep Space Nine", user_rating := 8, media_type := "TV",
      themes := ["political_intrigue", "character_arcs", "moral_complexity"] },
    { title := "Voyager", user_rating := 8, media_type := "TV",
      themes := ["exploration", "character_development", "alien_cultures"] },
    { title := "Enterprise", user_rating := 9, media_type := "TV",
      themes := ["prequel", "exploration", "character_arcs"] },
    { title := "Strange New Worlds", user_rating := 7, media_type := "TV",
      themes := ["episodic", "character_development", "nostalgia"] },
    { title := "Dark Matter 2015", user_rating := 7, media_type := "TV",
      themes := ["memory_loss", "ensemble_cast", "mystery"] },
    { title := "Dark Matter 2024", user_rating := 6, media_type := "TV",
      themes := ["new_concept", "mixed_execution", "potential"] },
    { title := "3 Body Problem", user_rating := 9, media_type := "TV",
      themes := ["hard_sci_fi", "philosophical", "real_science"] },
    { title := "Monarch", user_rating := 8, media_type := "TV",
      themes := ["monster_universe", "visual_effects", "human_drama"] },
    { title := "Fallout TV", user_rating := 9, media_type := "TV",
      themes := ["post_apocalyptic", "humor", "video_game_adaptation"] },
    { title := "Dark", user_rating := 9, media_type := "TV",
      themes := ["time_travel", "complex_narrative", "philosophy"] },
    { title := "For All Mankind", user_rating := 9, media_type := "TV",
      themes := ["alternate_history", "space_exploration", "realism"] },
    { title := "Fallout NV", user_rating := 9, media_type := "Game",
      themes := ["player_choice", "moral_complexity", "world_building"] },
    { title := "Mass Effect", user_rating := 8, media_type := "Game",
      themes := ["character_development", "space_opera", "moral_choices"] },
    { title := "Minecraft", user_rating := 10, media_type := "Game",
      themes := ["creativity", "building", "exploration"] },
    { title := "Witcher 3", user_rating := 9, media_type := "Game",
      themes := ["open_world", "storytelling", "moral_complexity"] },
    { title := "Half-Life 2", user_rating := 10, media_type := "Game",
      themes := ["physics_gameplay", "storytelling", "innovation"] },
    { title := "Horizon Zero Dawn", user_rating := 9, media_type := "Game",
      themes := ["open_world", "exploration", "unique_setting"] },
    { title := "GTA V", user_rating := 10, media_type := "Game",
      themes := ["open_world", "freedom", "immersion"] } ]

/-- The shape of a successfully parsed stored object: `preferences` is
`none` when the field is absent or falsy (`data.preferences ||` in JS),
`some l` when it is a present array. -/
structure StoredData where
  preferences : Option (List Preference)

/-- `StorageManager.loadPreferences` (storage.js lines 37-50). `stored` is
`localStorage.getItem(key)` (`none` when no value is stored); `parse` is
`JSON.parse` (`none` when parsing throws). The surrounding try/catch maps
every failure to the default list. -/
def loadPreferences (stored : Option String)
    (parse : String → Option StoredData) : List Preference :=
  match stored with
  | none => getDefaultPreferences
  | some s =>
    match parse s with
    | none => getDefaultPreferences
    | some d =>
      match d.preferences with
      | none => getDefaultPreferences
      | some p => p

end ExpertReview

namespace ExpertReview

/-- C1: with the configured default thresholds 0.8, 0.6, 0.4, the
recommendation classifier maps every compatibility score to exactly one of
the four tiers by threshold lookup: `s ≥ 0.8` is HighlyLikely,
`0.6 ≤ s < 0.8` is WorthTrying, `0.4 ≤ s < 0.6` is ProceedWithCaution and
`s < 0.4` is LikelyToDisappoint. -/
theorem recommendation_tier_partition (s : ℚ) :
    (classifyRecommendation defaultThresholds s = .highlyLikely ↔ 8/10 ≤ s) ∧
    (classifyRecommendation defaultThresholds s = .worthTrying ↔
      6/10 ≤ s ∧ s < 8/10) ∧
    (classifyRecommendation defaultThresholds s = .proceedWithCaution ↔
      4/10 ≤ s ∧ s < 6/10) ∧
    (classifyRecommendation defaultThresholds s = .likelyToDisappoint ↔
      s < 4/10) := by
  simp only [classifyRecommendation, defaultThresholds]
  split_ifs with h1 h2 h3
  · exact ⟨iff_of_true rfl h1,
      iff_of_false (by simp) (by rintro ⟨_, h⟩; linarith),
      iff_of_false (by simp) (by rintro ⟨_, h⟩; linarith),
      iff_of_false (by simp) (by intro h; linarith)⟩
  · exact ⟨iff_of_false (by simp) h1,
      iff_of_true rfl ⟨h2, not_le.mp h1⟩,
      iff_of_false (by simp) (by rintro ⟨_, h⟩; linarith),
      iff_of_false (by simp) (by intro h; linarith)⟩
  · exact ⟨iff_of_false (by simp) (by intro h; linarith [not_le.mp h1]),
      iff_of_false (by simp) (by rintro ⟨h, _⟩; exact h2 h),
      iff_of_true rfl ⟨h3, not_le.mp h2⟩,
      iff_of_false (by simp) (by intro h; linarith)⟩
  · exact ⟨iff_of_false (by simp) (by intro h; linarith [not_le.mp h3]),
      iff_of_false (by simp) (by rintro ⟨h, _⟩; linarith [not_le.mp h3]),
      iff_of_false (by simp) (by rintro ⟨h, _⟩; exact h3 h),
      iff_of_true rfl (not_le.mp h3)⟩

/-- C5: tier classification is monotone whenever the thresholds are ordered
(as the defaults are): for scores `a < b` the tier of `a` is never better
than the tier of `b` under LikelyToDisappoint < ProceedWithCaution <
WorthTrying < HighlyLikely. -/
theorem tier_monotone (cfg : RecommendationThresholds)
    (a b : ℚ) (hab : a < b) :
    tierRank (classifyRecommendation cfg a) ≤
      tierRank (classifyRecommendation cfg b) := by
  unfold classifyRecommendation
  split_ifs with h1 h2 h3 h4 h5 h6 <;> simp [tierRank] <;> linarith

/-- C5 witness: the theorem applied with the default thresholds at the
concrete scores 0 and 1. -/
theorem tier_monotone_witness :
    (0 : ℚ) < 1 ∧
    tierRank (classifyRecommendation defaultThresholds 0) ≤
      tierRank (classifyRecommendation defaultThresholds 1) :=
  ⟨by norm_num, tier_monotone defaultThresholds 0 1 (by norm_num)⟩

/-- C6: for every random draw in `[0,1)`, the compatibility score
`0.3 + r * 0.65` produced by the mock analysis lies in `[0,1]`. -/
theorem mock_score_in_unit_interval (r : ℚ) (h0 : 0 ≤ r) (h1 : r < 1) :
    0 ≤ mockCompatibilityScore r ∧ mockCompatibilityScore r ≤ 1 := by
  unfold mockCompatibilityScore
  constructor <;> nlinarith

/-- C6 witness: the theorem applied at the concrete draw 1/2. -/
theorem mock_score_in_unit_interval_witness :
    (0 : ℚ) ≤ 1/2 ∧ (1/2 : ℚ) < 1 ∧
    (0 ≤ mockCompatibilityScore (1/2) ∧ mockCompatibilityScore (1/2) ≤ 1) :=
  ⟨by norm_num, by norm_num,
    mock_score_in_unit_interval (1/2) (by norm_num) (by norm_num)⟩

/-- C2 counterexample: at the reachable score 0.8 (random draw 10/13) and
bucket draws 19/20 and 19/20, the mock sentiment summary is
positive 89, neutral 29, negative 1, which sums to 119, not 100. -/
theorem mock_sentiment_sum_not_100 :
    (mockSentimentSummary (mockCompatibilityScore (10/13)) (19/20) (19/20)).positive +
      (mockSentimentSummary (mockCompatibilityScore (10/13)) (19/20) (19/20)).neutral +
      (mockSentimentSummary (mockCompatibilityScore (10/13)) (19/20) (19/20)).negative ≠
      100 := by
  norm_num [mockSentimentSummary, mockCompatibilityScore, mockPositiveBase]

/-- C2 amended: the three integer fields of the mock sentiment summary sum
to `max 100 (positive + neutral + 1)`; the sum is exactly 100 precisely when
`positive + neutral ≤ 99`, and otherwise the clamp `negative = max 1 (...)`
pushes the sum above 100. -/
theorem mock_sentiment_sum_clamped (score r1 r2 : ℚ) :
    (mockSentimentSummary score r1 r2).positive +
        (mockSentimentSummary score r1 r2).neutral +
        (mockSentimentSummary score r1 r2).negative =
      max 100 ((mockSentimentSummary score r1 r2).positive +
        (mockSentimentSummary score r1 r2).neutral + 1) ∧
    ((mockSentimentSummary score r1 r2).positive +
          (mockSentimentSummary score r1 r2).neutral +
          (mockSentimentSummary score r1 r2).negative = 100 ↔
      (mockSentimentSummary score r1 r2).positive +
        (mockSentimentSummary score r1 r2).neutral ≤ 99) := by
  simp only [mockSentimentSummary]
  generalize ⌊(mockPositiveBase score : ℚ) + r1 * 20⌋ = p
  generalize ⌊(10 : ℚ) + r2 * 20⌋ = n
  rcases le_total (p + n) 99 with h | h
  · rw [max_eq_right (show (1 : ℤ) ≤ 100 - p - n by omega),
      max_eq_left (show p + n + 1 ≤ (100 : ℤ) by omega)]
    constructor
    · omega
    · constructor <;> intro <;> omega
  · rw [max_eq_left (show (100 : ℤ) - p - n ≤ 1 by omega),
      max_eq_right (show (100 : ℤ) ≤ p + n + 1 by omega)]
    constructor
    · omega
    · constructor <;> intro <;> omega

/-- C3 (code bug witness): the object returned by
`MockAPIClient._generateMockAnalysis` exposes recommendation,
compatibility_score, theme_alignment and sentiment_summary, but carries no
`evaluation` field (and no camel-case `compatibilityScore`), contradicting
the documented response contract. -/
theorem mock_result_lacks_evaluation :
    mockAnalysisResultFields.contains "evaluation" = false ∧
    mockAnalysisResultFields.contains "compatibilityScore" = false ∧
    mockAnalysisResultFields.contains "recommendation" = true ∧
    mockAnalysisResultFields.contains "compatibility_score" = true ∧
    mockAnalysisResultFields.contains "theme_alignment" = true ∧
    mockAnalysisResultFields.contains "sentiment_summary" = true := by
  decide

/-- C4: analyzing an empty raw-review sequence returns the typed error
InsufficientReviews for every oracle, configuration and profile — the
pipeline neither crashes (the function is total) nor fabricates a result. -/
theorem analyze_empty_insufficient (oracle : SentimentOracle)
    (cfg : FilterConfig) (weights : ScoringWeights)
    (rec : RecommendationThresholds) (vocab : List ThemeEntry)
    (profile : UserPreferenceProfile) :
    analyze oracle cfg weights rec vocab profile [] =
      Except.error AnalysisError.insufficientReviews := rfl

/-- C7: the theme alignment is the name sequence of the scored ranking: at
most 4 entries, ordered by aggregate theme score descending, every listed
theme has a positive (non-zero) aggregate score, and every entry comes from
a vocabulary theme with its aggregate score. -/
theorem theme_alignment_ranked (vocab : List ThemeEntry) (texts : List String) :
    (themeAlignment vocab texts).length ≤ 4 ∧
    themeAlignment vocab texts = (themeAlignmentScored vocab texts).map Prod.fst ∧
    (themeAlignmentScored vocab texts).Pairwise scoreDesc ∧
    ∀ p ∈ themeAlignmentScored vocab texts, 0 < p.2 ∧
      ∃ e ∈ vocab, p.1 = e.name ∧ p.2 = aggThemeScore e texts := by
  refine ⟨?_, rfl, ?_, ?_⟩
  · unfold themeAlignment themeAlignmentScored
    rw [List.length_map]
    exact List.length_take_le 4 _
  · exact ((List.sorted_insertionSort scoreDesc _).sublist
      (List.take_sublist 4 _) :)
  · intro p hp
    have h1 : p ∈ ((themeScores vocab texts).filter
        fun p => decide (0 < p.2)).insertionSort scoreDesc :=
      List.mem_of_mem_take hp
    rw [List.mem_insertionSort] at h1
    have h2 := List.mem_filter.mp h1
    have hpos : (0 : ℚ) < p.2 := by simpa using h2.2
    have h3 := h2.1
    unfold themeScores at h3
    rw [List.mem_map] at h3
    obtain ⟨e, he, heq⟩ := h3
    exact ⟨hpos, e, he, by rw [← heq], by rw [← heq]⟩

/-- Members of a deduplicated list never have a normalized text in the seen
accumulator. -/
theorem mem_dedupReviews_not_seen {l : List RawReview} {seen : List String}
    {r : RawReview} (h : r ∈ dedupReviews seen l) :
    normalizeText r.text ∉ seen := by
  induction l generalizing seen with
  | nil => simp [dedupReviews] at h
  | cons a l ih =>
    simp only [dedupReviews] at h
    by_cases hm : normalizeText a.text ∈ seen
    · rw [if_pos hm] at h
      exact ih h
    · rw [if_neg hm] at h
      rcases List.mem_cons.mp h with rfl | h2
      · exact hm
      · have h3 := ih h2
        exact fun hc => h3 (List.mem_cons_of_mem _ hc)

/-- The deduplicated list has pairwise-distinct normalized texts. -/
theorem pairwise_dedupReviews (l : List RawReview) (seen : List String) :
    (dedupReviews seen l).Pairwise
      (fun a b => normalizeText a.text ≠ normalizeText b.text) := by
  induction l generalizing seen with
  | nil => simp [dedupReviews]
  | cons a l ih =>
    simp only [dedupReviews]
    split
    · exact ih seen
    · refine List.Pairwise.cons (fun b hb => ?_) (ih _)
      have hnb := mem_dedupReviews_not_seen hb
      exact fun he => hnb (by rw [← he]; exact List.mem_cons_self _ _)

/-- Deduplication is the identity on a list whose normalized texts avoid the
accumulator and are pairwise distinct. -/
theorem dedupReviews_eq_self {l : List RawReview} :
    ∀ {seen : List String}, (∀ r ∈ l, normalizeText r.text ∉ seen) →
      l.Pairwise (fun a b => normalizeText a.text ≠ normalizeText b.text) →
      dedupReviews seen l = l := by
  induction l with
  | nil => intro seen _ _; rfl
  | cons a l ih =>
    intro seen hseen hpw
    simp only [dedupReviews]
    rw [if_neg (hseen a (List.mem_cons_self a l))]
    have hpc := List.pairwise_cons.mp hpw
    refine congrArg (a :: ·) (ih ?_ hpc.2)
    intro r hr
    rw [List.mem_cons]
    push_neg
    exact ⟨fun he => hpc.1 r hr he.symm, hseen r (List.mem_cons_of_mem a hr)⟩

/-- C8: the review filter is idempotent — filtering an already-filtered
review sequence changes nothing, for every configuration and input. -/
theorem review_filter_idempotent (cfg : FilterConfig) (raws : List RawReview) :
    reviewFilter cfg (reviewFilter cfg raws) = reviewFilter cfg raws := by
  have hpw : (reviewFilter cfg raws).Pairwise
      (fun a b => normalizeText a.text ≠ normalizeText b.text) :=
    (pairwise_dedupReviews raws []).filter _
  conv_lhs => rw [reviewFilter]
  rw [dedupReviews_eq_self (fun r _ => List.not_mem_nil _) hpw]
  refine List.filter_eq_self.mpr fun a ha => ?_
  rw [reviewFilter] at ha
  exact (List.mem_filter.mp ha).2

/-- C9: `isValidRating(rating, min, max)` accepts exactly the integer-valued
numbers between min and max inclusive; NaN, non-numbers (such as numeric
strings) and non-integer numbers are rejected. -/
theorem is_valid_rating_iff (v : JSValue) (mn mx : ℚ) :
    isValidRating v mn mx = true ↔
      ∃ x : ℚ, v = JSValue.num x ∧ mn ≤ x ∧ x ≤ mx ∧ x.den = 1 := by
  cases v <;>
    simp [isValidRating, jsTypeof, jsGeNum, jsLeNum, jsNumberIsInteger,
      and_assoc]

/-- C10: `loadPreferences` never propagates a failure — when nothing is
stored, when the stored string fails to parse, or when the parsed object
has no preferences field, it returns the built-in default list (and the
embedding is a total function, so no exception escapes). -/
theorem load_preferences_default (parse : String → Option StoredData)
    (s : String) :
    loadPreferences none parse = getDefaultPreferences ∧
    (parse s = none → loadPreferences (some s) parse = getDefaultPreferences) ∧
    (∀ d, parse s = some d → d.preferences = none →
      loadPreferences (some s) parse = getDefaultPreferences) := by
  refine ⟨rfl, fun h => ?_, fun d hd hp => ?_⟩
  · simp [loadPreferences, h]
  · simp [loadPreferences, hd, hp]

/-- C10 witness: the theorem applied at a concrete stored string whose
parse fails. -/
theorem load_preferences_default_witness :
    loadPreferences (some "bad json") (fun _ => none) = getDefaultPreferences :=
  (load_preferences_default (fun _ => none) "bad json").2.1 rfl

end ExpertReview
